import Mathlib

/-
Verification of the "AI Visibility Audit" lead-capture form.

The repository holds three source variants of the same React component:
  * the simple variant  (src/src/App.js, first document): two fields
    (business, location), no validation, a 1500 ms timer, then the
    constant result is shown;
  * the validating variant (src/src/App.js, second document): five
    fields, an empty-field check that raises a blocking alert and
    aborts, a console log, a 1500 ms timer, then the constant result;
  * the webhook variant (src/unnamed/part_000): five fields, no
    validation, an awaited fetch POST inside try/catch/finally; the
    constant result is stored only on the success path, the catch arm
    logs the error, the finally arm clears the loading flag.

The embedding below translates each variant faithfully.  Asynchrony is
modelled by the Cycle structure: one submit cycle has the state before
the synchronous part, the state held while the single suspension point
(the awaited fetch or the timer) is pending, and the state after the
continuation has run.  The outcome of the awaited fetch is an explicit
parameter (resolved with an arbitrary response, or rejected).
-/

namespace AppearAudit

/-- AuditResult is the shape of the hardcoded result object
(`simulatedResponse` in every variant). -/
structure AuditResult where
  directories : List String
  missing : List String
  aiMention : Bool
  recommendations : List String
deriving DecidableEq, Repr

/-- simulatedResponse is the constant literal that appears, textually
identical, in all three variants of runAudit. -/
def simulatedResponse : AuditResult :=
  { directories := ["Google Business", "Yelp", "Bing Places"]
    missing := ["Yelp"]
    aiMention := false
    recommendations :=
      ["Create a Yelp profile with full business details.",
       "Add structured FAQ to your website (schema.org markup).",
       "Get mentioned on local blogs or Reddit threads."] }

/-- FormState holds the five controlled text fields of the five-field
variants (contactName, phone, email, business, location), each a
useState string initialised to the empty string. -/
structure FormState where
  contactName : String
  phone : String
  email : String
  business : String
  location : String
deriving DecidableEq, Repr

/-- Field names a single one of the five text fields. -/
inductive Field where
  | contactName
  | phone
  | email
  | business
  | location
deriving DecidableEq, Repr

/-- setField is the onChange handler of one input: it calls the setter
of exactly that field with the new string value. -/
def setField (f : Field) (v : String) (s : FormState) : FormState :=
  match f with
  | .contactName => { s with contactName := v }
  | .phone => { s with phone := v }
  | .email => { s with email := v }
  | .business => { s with business := v }
  | .location => { s with location := v }

/-- getField reads the value displayed in one input (the value
attribute is bound to the corresponding state variable). -/
def getField (f : Field) (s : FormState) : String :=
  match f with
  | .contactName => s.contactName
  | .phone => s.phone
  | .email => s.email
  | .business => s.business
  | .location => s.location

/-- applyUpdates plays a sequence of keystroke events, oldest first. -/
def applyUpdates (us : List (Field × String)) (s : FormState) : FormState :=
  us.foldl (fun s u => setField u.1 u.2 s) s

/-- lastSet returns the value of the most recent update to field f in
the sequence, if any. -/
def lastSet (us : List (Field × String)) (f : Field) : Option String :=
  us.foldl (fun acc u => if u.1 = f then some u.2 else acc) none

/-- AppState is the full component state of a five-field variant:
the form fields, the results object (null until a completed submit)
and the loading flag. -/
structure AppState where
  form : FormState
  results : Option AuditResult
  loading : Bool
deriving DecidableEq, Repr

/-- initialState is the mount-time state: empty fields, null results,
loading false. -/
def initialState : AppState :=
  { form := ⟨"", "", "", "", ""⟩, results := none, loading := false }

/-- Cycle packages one submit cycle of a variant.  The field before is
the state when the handler starts, duringSuspension is the state held
for the whole time the unique suspension point (awaited fetch or
timer) is pending, and after is the state once the continuation has
run.  The structure has exactly one duringSuspension field because
every variant of runAudit has exactly one suspension point. -/
structure Cycle (σ : Type) where
  before : σ
  duringSuspension : σ
  after : σ
deriving DecidableEq, Repr

/-- Response models an HTTP response; the webhook variant never reads
either field. -/
structure Response where
  status : Nat
  body : String
deriving DecidableEq, Repr

/-- FetchOutcome is the settlement of the awaited fetch: resolved with
some response (any status, fetch resolves even on HTTP errors) or
rejected (network failure). -/
inductive FetchOutcome where
  | resolved (r : Response)
  | rejected
deriving DecidableEq, Repr

/-- Request models one outbound HTTP request as issued by fetch: url,
method, the Content-Type header, and the JSON body as the ordered
key-value pairs passed to JSON.stringify. -/
structure Request where
  url : String
  method : String
  contentType : String
  body : List (String × String)
deriving DecidableEq, Repr

/-- webhookUrl is the fixed endpoint of the webhook variant. -/
def webhookUrl : String :=
  "https://hook.eu2.make.com/oro7fxpewgxa31b8ke1aofxol60129xo"

/-- webhookRequest is the request the webhook variant builds from the
current field values: POST, JSON content type, body with the five
fields under the fixed keys name, phone, email, business, location. -/
def webhookRequest (f : FormState) : Request :=
  { url := webhookUrl
    method := "POST"
    contentType := "application/json"
    body := [("name", f.contactName), ("phone", f.phone),
             ("email", f.email), ("business", f.business),
             ("location", f.location)] }

/-- LogEntry models one console line of a variant: the success log of
the submitted fields, or the error log of the catch arm. -/
inductive LogEntry where
  | auditSubmitted (f : FormState)
  | webhookError
deriving DecidableEq, Repr

/-- runAudit_webhook_requests lists the outbound requests one call of
the webhook runAudit issues: exactly the single fetch. -/
def runAudit_webhook_requests (s : AppState) : List Request :=
  [webhookRequest s.form]

/-- runAudit_webhook_logs lists the console output of one webhook
submit: the success log runs only after the await succeeds; the catch
arm logs the error instead. -/
def runAudit_webhook_logs (s : AppState) (o : FetchOutcome) : List LogEntry :=
  match o with
  | .resolved _ => [.auditSubmitted s.form]
  | .rejected => [.webhookError]

/-- runAudit_webhook_final is the state after the webhook submit cycle
settles.  On resolution the try block continues: setResults stores the
constant, then finally clears loading.  On rejection control jumps to
catch, skipping setResults, and finally clears loading. -/
def runAudit_webhook_final (s : AppState) (o : FetchOutcome) : AppState :=
  match o with
  | .resolved _ => { s with results := some simulatedResponse, loading := false }
  | .rejected => { s with loading := false }

/-- runAudit_webhook_cycle is the full webhook submit cycle:
setLoading true runs synchronously before the awaited fetch, the
suspension holds that state, and the continuation yields the final
state. -/
def runAudit_webhook_cycle (s : AppState) (o : FetchOutcome) : Cycle AppState :=
  { before := s
    duringSuspension := { s with loading := true }
    after := runAudit_webhook_final s o }

/-- fieldsMissing is the guard of the validating variant:
`!contactName || !phone || !email || !business || !location`; in
JavaScript a string is falsy exactly when it is the empty string. -/
def fieldsMissing (f : FormState) : Bool :=
  f.contactName == "" || f.phone == "" || f.email == "" ||
  f.business == "" || f.location == ""

/-- alertMsg is the blocking alert text of the validating variant. -/
def alertMsg : String :=
  "Please fill in all fields before running the audit."

/-- ValidatingSubmit is the observable outcome of one call of the
validating runAudit: either the alert fired and the handler returned
with the state untouched, or the submit cycle ran with its console
log. -/
inductive ValidatingSubmit where
  | aborted (msg : String) (s : AppState)
  | ran (c : Cycle AppState) (logs : List LogEntry)
deriving DecidableEq, Repr

/-- runAudit_validating is the validating runAudit: guard, alert and
early return on a missing field; otherwise setLoading true, console
log, and a 1500 ms timer whose callback stores the constant result and
clears loading. -/
def runAudit_validating (s : AppState) : ValidatingSubmit :=
  if fieldsMissing s.form then
    .aborted alertMsg s
  else
    .ran
      { before := s
        duringSuspension := { s with loading := true }
        after := { s with results := some simulatedResponse, loading := false } }
      [.auditSubmitted s.form]

/-- runAudit_validating_requests lists the outbound requests of the
validating variant: it contains no network call at all. -/
def runAudit_validating_requests (_s : AppState) : List Request := []

/-- finalState projects the state at the end of the validating submit:
the untouched state when aborted, the post-timer state when it ran. -/
def ValidatingSubmit.finalState : ValidatingSubmit → AppState
  | .aborted _ s => s
  | .ran c _ => c.after

/-- alerts projects the blocking alerts raised during the submit. -/
def ValidatingSubmit.alerts : ValidatingSubmit → List String
  | .aborted m _ => [m]
  | .ran _ _ => []

/-- logs projects the console output of the submit. -/
def ValidatingSubmit.logs : ValidatingSubmit → List LogEntry
  | .aborted _ _ => []
  | .ran _ ls => ls

/-- SimpleFormState holds the two fields of the simple variant. -/
structure SimpleFormState where
  business : String
  location : String
deriving DecidableEq, Repr

/-- SimpleAppState is the component state of the simple variant. -/
structure SimpleAppState where
  form : SimpleFormState
  results : Option AuditResult
  loading : Bool
deriving DecidableEq, Repr

/-- runAudit_simple is the simple runAudit: no validation, setLoading
true, then a 1500 ms timer whose callback stores the constant result
and clears loading. -/
def runAudit_simple (s : SimpleAppState) : Cycle SimpleAppState :=
  { before := s
    duringSuspension := { s with loading := true }
    after := { s with results := some simulatedResponse, loading := false } }

/-- ResultsPanel is the rendered results block: the comma-joined
directories line, the comma-joined missing line, the Yes/No text of
the aiMention line, and one list item string per recommendation. -/
structure ResultsPanel where
  directoriesText : String
  missingText : String
  aiMentionText : String
  recommendationItems : List String
deriving DecidableEq, Repr

/-- renderResults translates the conditional JSX block: when results
is null nothing is rendered; otherwise the panel shows
`results.directories.join(", ")`, `results.missing.join(", ")`,
Yes or No for aiMention, and maps each recommendation to a list
item in order. -/
def renderResults (results : Option AuditResult) : Option ResultsPanel :=
  results.map fun r =>
    { directoriesText := String.intercalate ", " r.directories
      missingText := String.intercalate ", " r.missing
      aiMentionText := if r.aiMention then "Yes" else "No"
      recommendationItems := r.recommendations }

/-- cycle projects the submit cycle of a validating submit that passed
the guard; a submit aborted by the alert has no cycle. -/
def ValidatingSubmit.cycle : ValidatingSubmit → Option (Cycle AppState)
  | .aborted _ _ => none
  | .ran c _ => some c

/-- fieldsMissing_iff restates the JavaScript truthiness guard: the
guard fires exactly when some field is the empty string. -/
lemma fieldsMissing_iff (f : FormState) :
    fieldsMissing f = true ↔
      (f.contactName = "" ∨ f.phone = "" ∨ f.email = "" ∨
       f.business = "" ∨ f.location = "") := by
  simp [fieldsMissing, or_assoc]

/-- getField_setField_self states that writing a field makes that field
read back the written value. -/
lemma getField_setField_self (f : Field) (v : String) (s : FormState) :
    getField f (setField f v s) = v := by
  cases f <;> rfl

/-- getField_setField_ne states that writing one field leaves every
other field unchanged. -/
lemma getField_setField_ne (g f : Field) (v : String) (s : FormState)
    (h : g ≠ f) : getField f (setField g v s) = getField f s := by
  cases g <;> cases f <;> first | rfl | exact absurd rfl h

/-- lastSet_foldl_getD is a bookkeeping lemma about the accumulator of
lastSet: folding from an arbitrary seed equals folding from none with
the seed as fallback. -/
lemma lastSet_foldl_getD (f : Field) (us : List (Field × String)) :
    ∀ (a : Option String) (d : String),
      (us.foldl (fun acc u => if u.1 = f then some u.2 else acc) a).getD d =
        (us.foldl (fun acc u => if u.1 = f then some u.2 else acc) none).getD
          (a.getD d) := by
  induction us with
  | nil => intro a d; rfl
  | cons u us ih =>
    intro a d
    simp only [List.foldl_cons]
    by_cases h : u.1 = f
    · rw [if_pos h, if_pos h, ih (some u.2) d, ih (some u.2) ((a.getD d))]
      rfl
    · rw [if_neg h, if_neg h]
      exact ih a d

/-- getField_applyUpdates states that after a sequence of updates each
field shows its most recently written value, falling back to its prior
value when the sequence never wrote it. -/
lemma getField_applyUpdates (us : List (Field × String)) (f : Field)
    (s : FormState) :
    getField f (applyUpdates us s) = (lastSet us f).getD (getField f s) := by
  induction us generalizing s with
  | nil => rfl
  | cons u us ih =>
    show getField f (applyUpdates us (setField u.1 u.2 s)) = _
    rw [ih]
    show _ = (us.foldl (fun acc u => if u.1 = f then some u.2 else acc)
      (if u.1 = f then some u.2 else none)).getD (getField f s)
    rw [lastSet_foldl_getD]
    by_cases h : u.1 = f
    · rw [if_pos h, ← h, getField_setField_self]
      rfl
    · rw [if_neg h, getField_setField_ne u.1 f u.2 s h]
      rfl

/-- C1 counterexample: in the webhook variant, a submit whose outbound
POST rejects does NOT end with results equal to the fixed constant.
With every field populated and results initially null, the rejected
cycle ends with loading = false but results still null, because
setResults sits after the awaited fetch inside the try block and the
catch arm only logs. -/
theorem C1_rejected_keeps_old_results :
    (runAudit_webhook_final
        { form := ⟨"Ann", "555", "ann@example.com", "Cafe", "London"⟩,
          results := none, loading := true }
        FetchOutcome.rejected).results ≠ some simulatedResponse ∧
    (runAudit_webhook_final
        { form := ⟨"Ann", "555", "ann@example.com", "Cafe", "London"⟩,
          results := none, loading := true }
        FetchOutcome.rejected).loading = false := by
  constructor
  · simp [runAudit_webhook_final]
  · rfl

/-- C1 amended: in the webhook variant, when the outbound POST rejects
the submit cycle ends with loading = false and results unchanged (not
replaced by the constant); the failure is only logged, as the sole
console output of that cycle. -/
theorem C1_rejected_swallowed (s : AppState) :
    (runAudit_webhook_final s FetchOutcome.rejected).results = s.results ∧
    (runAudit_webhook_final s FetchOutcome.rejected).loading = false ∧
    runAudit_webhook_logs s FetchOutcome.rejected = [LogEntry.webhookError] :=
  ⟨rfl, rfl, rfl⟩

/-- C2 counterexample: with all five fields populated, the webhook
variant submit whose fetch rejects reaches loading = false at the
settlement, yet results does not equal the fixed constant. -/
theorem C2_rejected_no_constant :
    fieldsMissing (⟨"Bob", "777", "bob@example.com", "Deli", "Paris"⟩ : FormState) = false ∧
    (runAudit_webhook_cycle
        { form := ⟨"Bob", "777", "bob@example.com", "Deli", "Paris"⟩,
          results := none, loading := false }
        FetchOutcome.rejected).after.loading = false ∧
    (runAudit_webhook_cycle
        { form := ⟨"Bob", "777", "bob@example.com", "Deli", "Paris"⟩,
          results := none, loading := false }
        FetchOutcome.rejected).after.results ≠ some simulatedResponse := by
  refine ⟨by decide, rfl, ?_⟩
  simp [runAudit_webhook_cycle, runAudit_webhook_final]

/-- C2 amended: for every submit with all five fields populated,
loading is true synchronously from the start of the suspension and
false only at its completion; at that point results equals exactly the
fixed constant in the timer (validating) cycle and in the webhook
cycle whose fetch resolves, while a webhook cycle whose fetch rejects
leaves results unchanged instead. -/
theorem C2_populated_submit (s : AppState) (h : fieldsMissing s.form = false) :
    runAudit_validating s =
      .ran { before := s, duringSuspension := { s with loading := true },
             after := { s with results := some simulatedResponse, loading := false } }
        [LogEntry.auditSubmitted s.form] ∧
    (∀ r : Response,
      runAudit_webhook_cycle s (FetchOutcome.resolved r) =
        { before := s, duringSuspension := { s with loading := true },
          after := { s with results := some simulatedResponse, loading := false } }) ∧
    runAudit_webhook_cycle s FetchOutcome.rejected =
      { before := s, duringSuspension := { s with loading := true },
        after := { s with loading := false } } := by
  refine ⟨?_, fun r => rfl, rfl⟩
  simp [runAudit_validating, h]

/-- C2 witness: the populated form ⟨Cara, 888, cara@example.com,
Bakery, Rome⟩ satisfies the guard and its validating submit runs the
full cycle to the constant result. -/
theorem C2_populated_submit_witness :
    fieldsMissing (⟨"Cara", "888", "cara@example.com", "Bakery", "Rome"⟩ : FormState) = false ∧
    runAudit_validating
        { form := ⟨"Cara", "888", "cara@example.com", "Bakery", "Rome"⟩,
          results := none, loading := false } =
      .ran
        { before := { form := ⟨"Cara", "888", "cara@example.com", "Bakery", "Rome"⟩,
                      results := none, loading := false },
          duringSuspension := { form := ⟨"Cara", "888", "cara@example.com", "Bakery", "Rome"⟩,
                                results := none, loading := true },
          after := { form := ⟨"Cara", "888", "cara@example.com", "Bakery", "Rome"⟩,
                     results := some simulatedResponse, loading := false } }
        [LogEntry.auditSubmitted ⟨"Cara", "888", "cara@example.com", "Bakery", "Rome"⟩] :=
  ⟨by decide,
   (C2_populated_submit
     { form := ⟨"Cara", "888", "cara@example.com", "Bakery", "Rome"⟩,
       results := none, loading := false } (by decide)).1⟩

/-- C3: in the validating variant, a submit with some field empty
raises exactly the blocking alert and aborts atomically: the final
state is the prior state unchanged (so results and loading keep their
values, null and false on a first attempt), no console log is written,
and the variant issues no network request. -/
theorem C3_empty_field_aborts (s : AppState) (h : fieldsMissing s.form = true) :
    (runAudit_validating s).finalState = s ∧
    (runAudit_validating s).alerts = [alertMsg] ∧
    (runAudit_validating s).logs = [] ∧
    runAudit_validating_requests s = [] := by
  simp [runAudit_validating, h, ValidatingSubmit.finalState,
    ValidatingSubmit.alerts, ValidatingSubmit.logs, runAudit_validating_requests]

/-- C3 witness: a form with an empty contactName aborts with the alert
and leaves the state untouched. -/
theorem C3_empty_field_aborts_witness :
    fieldsMissing (⟨"", "1", "e@x.com", "Shop", "Oslo"⟩ : FormState) = true ∧
    ((runAudit_validating
        { form := ⟨"", "1", "e@x.com", "Shop", "Oslo"⟩,
          results := none, loading := false }).finalState =
      { form := ⟨"", "1", "e@x.com", "Shop", "Oslo"⟩,
        results := none, loading := false } ∧
     (runAudit_validating
        { form := ⟨"", "1", "e@x.com", "Shop", "Oslo"⟩,
          results := none, loading := false }).alerts = [alertMsg] ∧
     (runAudit_validating
        { form := ⟨"", "1", "e@x.com", "Shop", "Oslo"⟩,
          results := none, loading := false }).logs = [] ∧
     runAudit_validating_requests
        { form := ⟨"", "1", "e@x.com", "Shop", "Oslo"⟩,
          results := none, loading := false } = []) :=
  ⟨by decide,
   C3_empty_field_aborts
     { form := ⟨"", "1", "e@x.com", "Shop", "Oslo"⟩,
       results := none, loading := false } (by decide)⟩

/-- C4: rendering with null results shows no panel; rendering with a
populated results shows the directories and missing lists comma
joined, the aiMention flag as Yes when true and No when false, and one
list item per recommendation in original order. -/
theorem C4_rendering :
    renderResults none = none ∧
    (∀ ds ms rs : List String,
      renderResults (some ⟨ds, ms, true, rs⟩) =
        some ⟨String.intercalate ", " ds, String.intercalate ", " ms, "Yes", rs⟩ ∧
      renderResults (some ⟨ds, ms, false, rs⟩) =
        some ⟨String.intercalate ", " ds, String.intercalate ", " ms, "No", rs⟩) :=
  ⟨rfl, fun _ _ _ => ⟨rfl, rfl⟩⟩

/-- C5: every webhook submit issues exactly one outbound request: a
POST to the fixed URL with the JSON content type and a body holding
exactly the five current field values under the keys name, phone,
email, business, location; neither the final state nor the console
output depends on the response status or body. -/
theorem C5_webhook_request_shape (s : AppState) :
    runAudit_webhook_requests s = [webhookRequest s.form] ∧
    (webhookRequest s.form).url = webhookUrl ∧
    (webhookRequest s.form).method = "POST" ∧
    (webhookRequest s.form).contentType = "application/json" ∧
    (webhookRequest s.form).body =
      [("name", s.form.contactName), ("phone", s.form.phone),
       ("email", s.form.email), ("business", s.form.business),
       ("location", s.form.location)] ∧
    (∀ r1 r2 : Response,
      runAudit_webhook_final s (FetchOutcome.resolved r1) =
        runAudit_webhook_final s (FetchOutcome.resolved r2) ∧
      runAudit_webhook_logs s (FetchOutcome.resolved r1) =
        runAudit_webhook_logs s (FetchOutcome.resolved r2)) :=
  ⟨rfl, rfl, rfl, rfl, rfl, fun _ _ => ⟨rfl, rfl⟩⟩

/-- C6: every field update succeeds and replaces only the written
field, so after any sequence of updates each field displays the most
recently set value for that field (falling back to its prior value
when never written). -/
theorem C6_last_write_wins (us : List (Field × String)) (f g : Field)
    (v : String) (s : FormState) (hgf : g ≠ f) :
    getField f (setField f v s) = v ∧
    getField f (setField g v s) = getField f s ∧
    getField f (applyUpdates us s) = (lastSet us f).getD (getField f s) :=
  ⟨getField_setField_self f v s, getField_setField_ne g f v s hgf,
   getField_applyUpdates us f s⟩

/-- C6 witness: over the update sequence contactName := A, phone := P,
contactName := B, the contactName field shows B, the last value set
for it. -/
theorem C6_last_write_wins_witness :
    Field.phone ≠ Field.contactName ∧
    (getField .contactName (setField .contactName "B" ⟨"", "", "", "", ""⟩) = "B" ∧
     getField .contactName (setField .phone "B" ⟨"", "", "", "", ""⟩) =
       getField .contactName ⟨"", "", "", "", ""⟩ ∧
     getField .contactName
        (applyUpdates [(.contactName, "A"), (.phone, "P"), (.contactName, "B")]
          ⟨"", "", "", "", ""⟩) =
       (lastSet [(.contactName, "A"), (.phone, "P"), (.contactName, "B")]
          .contactName).getD (getField .contactName ⟨"", "", "", "", ""⟩)) :=
  ⟨by decide,
   C6_last_write_wins [(.contactName, "A"), (.phone, "P"), (.contactName, "B")]
     .contactName .phone "B" ⟨"", "", "", "", ""⟩ (by decide)⟩

/-- C7: every submit cycle that passes validation has a single
suspension point, modelled by the unique duringSuspension field of
Cycle (the 1500 ms timer in the simple and validating variants, the
awaited fetch settlement in the webhook variant, success and failure
alike); the state held while it is pending is the prior state with
loading := true, set synchronously before suspending, and loading is
false only in the state produced at completion. -/
theorem C7_one_suspension_loading (s : AppState) (t : SimpleAppState)
    (o : FetchOutcome) (h : fieldsMissing s.form = false) :
    ((runAudit_simple t).duringSuspension = { t with loading := true } ∧
     (runAudit_simple t).after.loading = false) ∧
    (runAudit_validating s).cycle =
      some { before := s, duringSuspension := { s with loading := true },
             after := { s with results := some simulatedResponse, loading := false } } ∧
    ((runAudit_webhook_cycle s o).duringSuspension = { s with loading := true } ∧
     (runAudit_webhook_cycle s o).after.loading = false) := by
  refine ⟨⟨rfl, rfl⟩, ?_, rfl, ?_⟩
  · simp [runAudit_validating, h, ValidatingSubmit.cycle]
  · cases o <;> rfl

/-- C7 witness: a concrete populated five-field state, a concrete
simple-variant state and the rejected fetch outcome instantiate the
cycle shape. -/
theorem C7_one_suspension_loading_witness :
    fieldsMissing (⟨"Dan", "999", "dan@example.com", "Gym", "Kyiv"⟩ : FormState) = false ∧
    (((runAudit_simple { form := ⟨"Gym", "Kyiv"⟩, results := none, loading := false }).duringSuspension =
        { form := ⟨"Gym", "Kyiv"⟩, results := none, loading := true } ∧
      (runAudit_simple { form := ⟨"Gym", "Kyiv"⟩, results := none, loading := false }).after.loading = false) ∧
     (runAudit_validating
        { form := ⟨"Dan", "999", "dan@example.com", "Gym", "Kyiv"⟩,
          results := none, loading := false }).cycle =
       some { before := { form := ⟨"Dan", "999", "dan@example.com", "Gym", "Kyiv"⟩,
                          results := none, loading := false },
              duringSuspension := { form := ⟨"Dan", "999", "dan@example.com", "Gym", "Kyiv"⟩,
                                    results := none, loading := true },
              after := { form := ⟨"Dan", "999", "dan@example.com", "Gym", "Kyiv"⟩,
                         results := some simulatedResponse, loading := false } } ∧
     ((runAudit_webhook_cycle
          { form := ⟨"Dan", "999", "dan@example.com", "Gym", "Kyiv"⟩,
            results := none, loading := false } FetchOutcome.rejected).duringSuspension =
        { form := ⟨"Dan", "999", "dan@example.com", "Gym", "Kyiv"⟩,
          results := none, loading := true } ∧
      (runAudit_webhook_cycle
          { form := ⟨"Dan", "999", "dan@example.com", "Gym", "Kyiv"⟩,
            results := none, loading := false } FetchOutcome.rejected).after.loading = false)) :=
  ⟨by decide,
   C7_one_suspension_loading
     { form := ⟨"Dan", "999", "dan@example.com", "Gym", "Kyiv"⟩,
       results := none, loading := false }
     { form := ⟨"Gym", "Kyiv"⟩, results := none, loading := false }
     FetchOutcome.rejected (by decide)⟩

/-- C8: two-run noninterference of the submitted fields: for any two
form states, a submit cycle run from otherwise equal component states
yields the same final results value in every variant (given the same
fetch outcome in the webhook variant, and both passing validation in
the validating variant, where the value is exactly the constant); the
displayed result never depends on what was typed. -/
theorem C8_result_independent_of_form (f1 f2 : FormState)
    (r0 : Option AuditResult) (b : Bool) (o : FetchOutcome)
    (t1 t2 : SimpleFormState)
    (h1 : fieldsMissing f1 = false) (h2 : fieldsMissing f2 = false) :
    (runAudit_webhook_final ⟨f1, r0, b⟩ o).results =
      (runAudit_webhook_final ⟨f2, r0, b⟩ o).results ∧
    ((runAudit_validating ⟨f1, r0, b⟩).finalState.results =
       (runAudit_validating ⟨f2, r0, b⟩).finalState.results ∧
     (runAudit_validating ⟨f1, r0, b⟩).finalState.results = some simulatedResponse) ∧
    (runAudit_simple ⟨t1, r0, b⟩).after.results =
      (runAudit_simple ⟨t2, r0, b⟩).after.results := by
  refine ⟨?_, ⟨?_, ?_⟩, rfl⟩
  · cases o <;> rfl
  · simp [runAudit_validating, h1, h2, ValidatingSubmit.finalState]
  · simp [runAudit_validating, h1, ValidatingSubmit.finalState]

/-- C8 witness: two fully different populated forms produce the same
final results in each variant. -/
theorem C8_result_independent_of_form_witness :
    fieldsMissing (⟨"Eve", "111", "eve@example.com", "Bar", "Lima"⟩ : FormState) = false ∧
    fieldsMissing (⟨"Fay", "222", "fay@example.com", "Spa", "Bern"⟩ : FormState) = false ∧
    ((runAudit_webhook_final
        { form := ⟨"Eve", "111", "eve@example.com", "Bar", "Lima"⟩,
          results := none, loading := false } FetchOutcome.rejected).results =
       (runAudit_webhook_final
        { form := ⟨"Fay", "222", "fay@example.com", "Spa", "Bern"⟩,
          results := none, loading := false } FetchOutcome.rejected).results ∧
     ((runAudit_validating
        { form := ⟨"Eve", "111", "eve@example.com", "Bar", "Lima"⟩,
          results := none, loading := false }).finalState.results =
       (runAudit_validating
        { form := ⟨"Fay", "222", "fay@example.com", "Spa", "Bern"⟩,
          results := none, loading := false }).finalState.results ∧
      (runAudit_validating
        { form := ⟨"Eve", "111", "eve@example.com", "Bar", "Lima"⟩,
          results := none, loading := false }).finalState.results = some simulatedResponse) ∧
     (runAudit_simple { form := ⟨"Bar", "Lima"⟩, results := none, loading := false }).after.results =
       (runAudit_simple { form := ⟨"Spa", "Bern"⟩, results := none, loading := false }).after.results) :=
  ⟨by decide, by decide,
   C8_result_independent_of_form
     ⟨"Eve", "111", "eve@example.com", "Bar", "Lima"⟩
     ⟨"Fay", "222", "fay@example.com", "Spa", "Bern"⟩
     none false FetchOutcome.rejected
     ⟨"Bar", "Lima"⟩ ⟨"Spa", "Bern"⟩ (by decide) (by decide)⟩

/-- C9: the validating guard rejects exactly the empty string: the
blocking alert fires if and only if some field equals the empty
string, so any form whose fields are all non-empty, whitespace-only
strings included, proceeds without an alert. -/
theorem C9_alert_iff_empty_field (s : AppState) :
    (runAudit_validating s).alerts ≠ [] ↔
      (s.form.contactName = "" ∨ s.form.phone = "" ∨ s.form.email = "" ∨
       s.form.business = "" ∨ s.form.location = "") := by
  rw [← fieldsMissing_iff]
  cases h : fieldsMissing s.form with
  | true => simp [runAudit_validating, h, ValidatingSubmit.alerts]
  | false => simp [runAudit_validating, h, ValidatingSubmit.alerts]

/-- C9 witness: a form whose five fields are single spaces raises no
alert, because a whitespace-only string is not the empty string. -/
theorem C9_alert_iff_empty_field_witness :
    ¬ ((runAudit_validating
          { form := ⟨" ", " ", " ", " ", " "⟩,
            results := none, loading := false }).alerts ≠ []) := by
  rw [C9_alert_iff_empty_field]
  decide

/-- C10: in the constant result produced by every variant, every
element of the missing list is also an element of the directories
list, although no code path enforces this subset relationship. -/
theorem C10_missing_subset_directories :
    ∀ x : String, x ∈ simulatedResponse.missing →
      x ∈ simulatedResponse.directories := by
  decide

/-- C10 witness: the sole missing entry Yelp is listed among the
directories. -/
theorem C10_missing_subset_directories_witness :
    "Yelp" ∈ simulatedResponse.missing ∧
    "Yelp" ∈ simulatedResponse.directories :=
  ⟨by decide, C10_missing_subset_directories "Yelp" (by decide)⟩

end AppearAudit
